import Mathlib

/-!
Verification development for the observability-agent repository.

The repository is a natural-language front end over a Grafana dashboard
inventory.  The definitions below are a shallow embedding of the core
pipeline: the heuristic intent classifier, the filter-term extractor, the
out-of-scope guard and the single-node orchestrator from `src/agent.py`;
the dashboard-payload normalizer from `src/tools.py`; the time-range
resolver from `src/agent/query_parser.py` together with its
exception-to-QueryError boundary from `src/agent/metrics_agent.py`; and the
result models from `src/models/result.py`.

Modelling conventions:
* Python strings are Lean `String`s (queries and replies in the source are
  ASCII, so `Char.toLower` matches Python `str.lower`).
* Machine-external library calls (`json.loads`,
  `datetime.fromisoformat`) and the two network collaborators (the
  language model and the MCP gateway) are passed in as explicit oracle
  arguments, so every embedded function is a pure total function.
* Python exceptions are embedded as `Except`/`Option` results; a raised
  exception is an `.error` value, so "no exception escapes" holds by the
  totality of the embedding and what remains to prove is that every
  failure path produces the documented error value.
* The orchestrator result carries instrumentation flags (`llmCalled`,
  `listCalled`, `searchCalled`) recording which collaborator calls the
  control flow actually performed, read off directly from where
  `llm.ainvoke`, `list_dashboards` and `search_dashboards` occur in the
  source.
-/

namespace ObsAgent

/-! ### Character and string helpers mirroring the Python string operations -/

/-- The single-quote character (code point 39). -/
def aposC : Char := Char.ofNat 39

/-- The double-quote character (code point 34). -/
def dqC : Char := Char.ofNat 34

/-- Opening curly brace character. -/
def obraceC : Char := Char.ofNat 123

/-- Closing curly brace character. -/
def cbraceC : Char := Char.ofNat 125

/-- Whitespace test matching the characters stripped by Python `str.strip()`
on ASCII text: space, tab, newline, carriage return, vertical tab, form feed. -/
def isWs (c : Char) : Bool :=
  c = ' ' || c = '\t' || c = '\n' || c = '\r' || c = Char.ofNat 11 || c = Char.ofNat 12

/-- Quote characters stripped by the Python strip call with the two quote characters. -/
def isQuoteC (c : Char) : Bool :=
  c = aposC || c = dqC

/-- Strip characters satisfying `p` from both ends of a character list
(Python `str.strip` with a character class). -/
def stripWhile (p : Char → Bool) (l : List Char) : List Char :=
  ((l.dropWhile p).reverse.dropWhile p).reverse

/-- Python `str.strip()` (default whitespace stripping). -/
def pyStrip (s : String) : String :=
  String.mk (stripWhile isWs s.data)

/-- Python `str.lower()` (ASCII case folding suffices for the data of the source). -/
def strLower (s : String) : String :=
  String.mk (s.data.map Char.toLower)

/-- Boolean prefix test on character lists. -/
def isPrefixB : List Char → List Char → Bool
  | [], _ => true
  | _ :: _, [] => false
  | a :: as, b :: bs => a = b && isPrefixB as bs

/-- Boolean substring-occurrence test on character lists
(Python `needle in hay`). -/
def hasInfix (hay needle : List Char) : Bool :=
  match hay with
  | [] => isPrefixB needle []
  | _ :: t => isPrefixB needle hay || hasInfix t needle

/-- Python substring containment `needle in hay` on strings. -/
def strContains (hay needle : String) : Bool :=
  hasInfix hay.data needle.data

/-- Everything after the first occurrence of `pat` (Python
`s.split(pat, 1)[1]`), or `none` when `pat` does not occur. -/
def afterSub (pat : List Char) : List Char → Option (List Char)
  | [] => if pat = [] then some [] else none
  | c :: t => if isPrefixB pat (c :: t) then some (List.drop pat.length (c :: t))
              else afterSub pat t

/-- Worker for `removeAllSub`, structurally recursive on a fuel counter
(each step consumes at least one character, so `s.length` fuel always
suffices and the `0` case is never reached from `removeAllSub`). -/
def removeAllSubFuel (pat : List Char) : Nat → List Char → List Char
  | 0, s => s
  | _ + 1, [] => []
  | fuel + 1, c :: t =>
    if isPrefixB pat (c :: t) && pat.length > 0 then
      removeAllSubFuel pat fuel (List.drop pat.length (c :: t))
    else
      c :: removeAllSubFuel pat fuel t

/-- Remove every (non-overlapping, leftmost-first) occurrence of `pat`
(Python `s.replace(pat, "")` for a non-empty `pat`). -/
def removeAllSub (pat : List Char) (s : List Char) : List Char :=
  removeAllSubFuel pat s.length s

/-- Python `s.split(c)` for a one-character separator: the segments between
occurrences of `c`, empty segments included. -/
def pySplitChar (c : Char) : List Char → List (List Char)
  | [] => [[]]
  | a :: t =>
    if a = c then [] :: pySplitChar c t
    else
      match pySplitChar c t with
      | [] => [[a]]
      | h :: r => (a :: h) :: r

/-- Python `s.split()` with no argument: whitespace-delimited words, with no
empty words.  `acc` is the current word being read, in reverse. -/
def pyWordsAux : List Char → List Char → List (List Char)
  | [], acc => if acc = [] then [] else [acc.reverse]
  | c :: t, acc =>
    if isWs c then
      if acc = [] then pyWordsAux t [] else acc.reverse :: pyWordsAux t []
    else
      pyWordsAux t (c :: acc)

/-- Python `s.split()` on a string. -/
def pyWords (s : String) : List (List Char) :=
  pyWordsAux s.data []

/-- Index of the first occurrence of `c` (Python `str.find`), `-1` if absent. -/
def pyFindChar (c : Char) (l : List Char) : Int :=
  match l with
  | [] => -1
  | a :: t =>
    if a = c then 0
    else
      match pyFindChar c t with
      | -1 => -1
      | i => i + 1

/-- Index of the last occurrence of `c` (Python `str.rfind`), `-1` if absent. -/
def pyRfindChar (c : Char) (l : List Char) : Int :=
  match l with
  | [] => -1
  | a :: t =>
    match pyRfindChar c t with
    | -1 => if a = c then 0 else -1
    | i => i + 1

/-- Python slice `l[a:b]` for non-negative bounds. -/
def pySlice (l : List Char) (a b : Int) : List Char :=
  (l.take b.toNat).drop a.toNat

/-! ### Intent classifier and scope guard (`src/agent.py`) -/

/-- List-intent keywords from `_extract_intent`. -/
def listKeywords : List String :=
  ["show all", "list", "give me", "what dashboards", "all dashboards"]

/-- Filter-intent keywords from `_extract_intent`. -/
def filterKeywords : List String :=
  ["with", "where", "filter", "search", "matching", "related"]

/-- Dashboard-context words from `_extract_intent`. -/
def dashboardContextTerms : List String :=
  ["dashboard", "updated", "last", "created", "database", "service", "api",
   "performance", "health"]

/-- Info-question words from `_extract_intent`. -/
def infoKeywords : List String :=
  ["when", "what", "tell me", "info", "about", "time", "update"]

/-- Embedding of `_extract_intent` (src/agent.py:241-279): lowercase the
query, then test the fixed keyword sets in priority order, returning the
Python string tags `"list"`, `"filter"`, `"get_info"` or `"unknown"`. -/
def extract_intent (query : String) : String :=
  let query_lower := strLower query
  if listKeywords.any (fun k => strContains query_lower k) then "list"
  else if filterKeywords.any (fun k => strContains query_lower k) then "filter"
  else if (dashboardContextTerms.any (fun t => strContains query_lower t)) &&
          (infoKeywords.any (fun k => strContains query_lower k)) then "get_info"
  else "unknown"

/-- Out-of-scope phrase list from `_is_out_of_scope` (src/agent.py:227-235).
The two phrases containing an apostrophe are built from `aposC`. -/
def outOfScopeKeywords : List String :=
  ["cannot",
   "can" ++ String.singleton aposC ++ "t",
   "not able to",
   "not able",
   "out of scope",
   "i cannot",
   "i can" ++ String.singleton aposC ++ "t"]

/-- Embedding of `_is_out_of_scope` (src/agent.py:216-238): lowercase the
LLM response and test whether any fixed phrase occurs as a substring.  The
`query` argument is accepted but never read, exactly as in the source. -/
def is_out_of_scope (response : String) (query : String) : Bool :=
  let _ := query
  let response_lower := strLower response
  outOfScopeKeywords.any (fun keyword => strContains response_lower keyword)

/-! ### Filter-term extractor (`src/agent.py:282-317`) -/

/-- The literal `" in the name"`. -/
def inTheNameSuffix : List Char := " in the name".data

/-- The literal `" in name"`. -/
def inNameSuffix : List Char := " in name".data

/-- Embedding of `_extract_filter_term` (src/agent.py:282-317).
Priority order as in the source: single-quote split, double-quote split,
text after `"with"` in the lowercased query with the `" in the name"` /
`" in name"` suffixes removed, last two whitespace words for queries of
more than two words, else the stripped query.  In Python, when the quote
character occurs, `query.split(q)` always has at least two parts and
`parts[1]` is returned, so the quote branches never fall through. -/
def extract_filter_term (query : String) : String :=
  if query.data.contains aposC then
    String.mk ((pySplitChar aposC query.data).getD 1 [])
  else if query.data.contains dqC then
    String.mk ((pySplitChar dqC query.data).getD 1 [])
  else
    match afterSub "with".data (strLower query).data with
    | some rest =>
      String.mk (stripWhile isWs
        (removeAllSub inNameSuffix
          (removeAllSub inTheNameSuffix (stripWhile isWs rest))))
    | none =>
      let words := pyWords query
      if words.length > 2 then
        String.mk (stripWhile isQuoteC
          (String.intercalate " " ((words.drop (words.length - 2)).map String.mk)).data)
      else
        pyStrip query

/-! ### Dashboard records and the response formatter (`src/tools.py`, `src/agent.py`) -/

/-- Embedding of the `DashboardMetadata` dataclass (src/tools.py:47-71).
`tags` is `Optional[List[str]]` in the source with `None` and `[]` both
falsy at every use site, so both are modelled as `[]`. -/
structure DashboardMetadata where
  id : String
  uid : String
  title : String
  updated : String
  folder_title : Option String := none
  tags : List String := []
  org_id : Int := 1
  starred : Bool := false
deriving DecidableEq, Repr

/-- The lines appended for one dashboard by the loop of
`_format_dashboard_list` (src/agent.py:335-342), numbered entry `n`.
`if dashboard.folder_title:` and `if dashboard.tags:` are Python
truthiness tests, so an empty folder string or empty tag list is skipped. -/
def entry_block (n : Nat) (d : DashboardMetadata) : List String :=
  [toString n ++ ". " ++ d.title]
  ++ (match d.folder_title with
      | some f => if f = "" then [] else ["   Folder: " ++ f]
      | none => [])
  ++ ["   Last updated: " ++ d.updated]
  ++ (if d.tags = [] then [] else ["   Tags: " ++ String.intercalate ", " d.tags])
  ++ [""]

/-- The full `lines` list built by `_format_dashboard_list`
(src/agent.py:333-342): header, then the numbered entries (1-based,
Python `enumerate(dashboards, 1)`). -/
def dash_lines (dashboards : List DashboardMetadata) : List String :=
  ("Found " ++ toString dashboards.length ++ " dashboard(s):\n")
  :: dashboards.enum.flatMap (fun p => entry_block (p.1 + 1) p.2)

/-- Embedding of `_format_dashboard_list` (src/agent.py:320-344): the fixed
literal for an empty list, else the joined lines with surrounding
whitespace stripped (Python `"\n".join(lines).strip()`). -/
def format_dashboard_list (dashboards : List DashboardMetadata) : String :=
  if dashboards = [] then "No dashboards found."
  else pyStrip (String.intercalate "\n" (dash_lines dashboards))

/-! ### The single-node orchestrator (`src/agent.py:74-213`) -/

/-- The gateway error kinds caught by `agent_node`
(`GrafanaConnectionError`, `GrafanaDataError`). -/
inductive GrafanaErr
  | connectionError
  | dataError
deriving DecidableEq, Repr

/-- Oracle view of `GrafanaMCPTool` as used by `agent_node`: the outcome of
`list_dashboards()` and of `search_dashboards(term)` for each term.  A
raised `GrafanaConnectionError`/`GrafanaDataError` is an `.error` value. -/
structure ToolOracle where
  list_dashboards : Except GrafanaErr (List DashboardMetadata)
  search_dashboards : String → Except GrafanaErr (List DashboardMetadata)

/-- The state update returned by `agent_node`, plus instrumentation.
`intent := none` models a return that leaves the `intent` key of the state
untouched; `dataOut` is the `data` key.  `llmCalled`, `listCalled` and
`searchCalled` record which collaborator calls the taken control-flow path
performs in the source. -/
structure AgentResult where
  response : String
  status : String
  error_code : Option String
  intent : Option String
  dataOut : Option (List DashboardMetadata)
  llmCalled : Bool
  listCalled : Bool
  searchCalled : Option String
deriving Repr

/-- Fixed guidance message for an empty query (src/agent.py:99). -/
def emptyQueryMsg : String :=
  "Please provide a query about dashboards (e.g., " ++ String.singleton aposC
  ++ "Show me all dashboards" ++ String.singleton aposC ++ ")."

/-- Fixed guidance message for an unhandled intent (src/agent.py:171). -/
def guidanceMsg : String :=
  "I didn" ++ String.singleton aposC
  ++ "t understand your request. Please ask about dashboards, e.g., "
  ++ String.singleton aposC ++ "Show me all dashboards" ++ String.singleton aposC
  ++ " or " ++ String.singleton aposC ++ "List dashboards with prod in the name"
  ++ String.singleton aposC ++ "."

/-- Fixed connection-failure message (src/agent.py:181). -/
def connErrMsg : String :=
  "Unable to connect to Grafana. Please check your configuration and ensure the MCP server is running."

/-- Fixed data-failure message (src/agent.py:191). -/
def dataErrMsg : String :=
  "Grafana returned incomplete data. Please try again or contact your administrator."

/-- Empty filter-result message (src/agent.py:155). -/
def noMatchMsg (filter_term : String) : String :=
  "No dashboards match your criteria: " ++ String.singleton aposC ++ filter_term
  ++ String.singleton aposC

/-- Embedding of `agent_node` (src/agent.py:74-213).  The language model is
the oracle `llm` (its reply to the prompt built from the stripped query);
the gateway is the oracle `tools`.  The timeout and the
unanticipated-exception handlers guard oracle behaviour that the pure
embedding cannot exhibit, so they have no counterpart here. -/
def agent_node (query0 : String) (llm : String → String) (tools : ToolOracle) : AgentResult :=
  let query := pyStrip query0
  if query = "" then
    { response := emptyQueryMsg, status := "invalid", error_code := some "empty_query",
      intent := none, dataOut := none,
      llmCalled := false, listCalled := false, searchCalled := none }
  else
    let response_text := llm query
    if is_out_of_scope response_text query then
      { response := response_text, status := "out_of_scope",
        error_code := some "out_of_scope", intent := some "out_of_scope", dataOut := none,
        llmCalled := true, listCalled := false, searchCalled := none }
    else
      let intent := extract_intent query
      if intent = "list" || intent = "unknown" then
        match tools.list_dashboards with
        | .ok dashboards =>
          { response := if dashboards = [] then "No dashboards found in Grafana."
                        else format_dashboard_list dashboards,
            status := "success", error_code := none, intent := some intent,
            dataOut := some dashboards,
            llmCalled := true, listCalled := true, searchCalled := none }
        | .error .connectionError =>
          { response := connErrMsg, status := "error",
            error_code := some "grafana_connection_error", intent := some intent,
            dataOut := none, llmCalled := true, listCalled := true, searchCalled := none }
        | .error .dataError =>
          { response := dataErrMsg, status := "error",
            error_code := some "grafana_data_error", intent := some intent,
            dataOut := none, llmCalled := true, listCalled := true, searchCalled := none }
      else if intent = "filter" then
        let filter_term := extract_filter_term query
        match tools.search_dashboards filter_term with
        | .ok dashboards =>
          { response := if dashboards = [] then noMatchMsg filter_term
                        else format_dashboard_list dashboards,
            status := "success", error_code := none, intent := some intent,
            dataOut := some dashboards,
            llmCalled := true, listCalled := false, searchCalled := some filter_term }
        | .error .connectionError =>
          { response := connErrMsg, status := "error",
            error_code := some "grafana_connection_error", intent := some intent,
            dataOut := none, llmCalled := true, listCalled := false,
            searchCalled := some filter_term }
        | .error .dataError =>
          { response := dataErrMsg, status := "error",
            error_code := some "grafana_data_error", intent := some intent,
            dataOut := none, llmCalled := true, listCalled := false,
            searchCalled := some filter_term }
      else
        { response := guidanceMsg, status := "invalid",
          error_code := some "invalid_query", intent := some "unknown", dataOut := none,
          llmCalled := true, listCalled := false, searchCalled := none }

/-! ### Retrieval payloads (`src/tools.py:284-360`) -/

/-- Python/JSON values as they occur in MCP retrieval payloads. -/
inductive PyVal
  | null
  | bool (b : Bool)
  | int (n : Int)
  | str (s : String)
  | list (xs : List PyVal)
  | dict (fields : List (String × PyVal))

/-- Python truthiness of a value. -/
def pyTruthy : PyVal → Bool
  | .null => false
  | .bool b => b
  | .int n => n != 0
  | .str s => s ≠ ""
  | .list xs => !xs.isEmpty
  | .dict f => !f.isEmpty

/-- Python `str()` display conversion.  Container rendering is abbreviated:
no claim inspects the display form of a non-scalar field value. -/
def pyStrOf : PyVal → String
  | .null => "None"
  | .bool b => if b then "True" else "False"
  | .int n => toString n
  | .str s => s
  | .list _ => "<list>"
  | .dict _ => "<dict>"

/-- Python `int`-valued read of a field; non-numeric values collapse to the
default `1` (no claim exercises them). -/
def pyIntOf : PyVal → Int
  | .int n => n
  | .bool b => if b then 1 else 0
  | _ => 1

/-- Python `dict.get(key)` as first-match association lookup. -/
def pyLookup (fields : List (String × PyVal)) (key : String) : Option PyVal :=
  match fields.find? (fun p => p.1 = key) with
  | some p => some p.2
  | none => none

/-- Python `dict.get(key, default)`. -/
def pyGetD (fields : List (String × PyVal)) (key : String) (dflt : PyVal) : PyVal :=
  (pyLookup fields key).getD dflt

/-- Embedding of `_parse_dashboard` (src/tools.py:338-360).  `jsonLoads` is
the `json.loads` oracle (`none` = `JSONDecodeError`).  The result is `none`
exactly when Python raises inside `_parse_dashboard` — a string payload
that fails to decode, or a value with no `.get` method (not a dict) — which
the per-record handler of the caller turns into a skip.  Display-only
conversions of non-string field values go through `pyStrOf`; a falsy final
operand of the `or`-chain for `folder_title` is collapsed to `none`
(observationally equal under the truthiness test of the formatter); a non-list
`tags` value is collapsed to `[]` (no claim exercises it). -/
def parse_dashboard (jsonLoads : String → Option PyVal) (v : PyVal) :
    Option DashboardMetadata :=
  let v1 : Option PyVal :=
    match v with
    | .str s => jsonLoads s
    | _ => some v
  match v1 with
  | none => none
  | some w =>
    match w with
    | .dict f =>
      let folder1 := pyGetD f "folderTitle" .null
      let folder2 := pyGetD f "folder_title" .null
      let folder3 := pyGetD f "folderName" .null
      some
        { id := pyStrOf (pyGetD f "id" (.str ""))
          uid := pyStrOf (pyGetD f "uid" (.str ""))
          title := pyStrOf (pyGetD f "title" (.str "Untitled"))
          updated := pyStrOf (pyGetD f "updated" (pyGetD f "updatedAt" (.str "")))
          folder_title :=
            if pyTruthy folder1 then some (pyStrOf folder1)
            else if pyTruthy folder2 then some (pyStrOf folder2)
            else if pyTruthy folder3 then some (pyStrOf folder3)
            else none
          tags :=
            match pyLookup f "tags" with
            | some (.list xs) => xs.map pyStrOf
            | _ => []
          org_id :=
            if pyTruthy (pyGetD f "orgId" (.int 1)) then pyIntOf (pyGetD f "orgId" (.int 1))
            else pyIntOf (pyGetD f "org_id" (.int 1))
          starred :=
            pyTruthy (pyGetD f "isStarred" (.bool false))
            || pyTruthy (pyGetD f "starred" (.bool false)) }
    | _ => none

/-- Wrapper-key unwrapping and list-shaping stage of `_parse_dashboard_list`
(src/tools.py:310-321): a dict is unwrapped under `"dashboards"` first,
else `"results"`, else treated as a single record; any remaining non-list
value is wrapped as a one-element list. -/
def unwrapShape (w : PyVal) : List PyVal :=
  let u : PyVal :=
    match w with
    | .dict f =>
      match pyLookup f "dashboards" with
      | some x => x
      | none =>
        match pyLookup f "results" with
        | some x => x
        | none => .list [.dict f]
    | _ => w
  match u with
  | .list xs => xs
  | x => [x]

/-- Payload-level stage of `_parse_dashboard_list` (src/tools.py:299-321):
`None` yields `[]`; a JSON-decode is attempted only for a string payload
(decode failure yields `[]`, src/tools.py:306-308); then the
unwrap/listify stage runs. -/
def normalize_payload (jsonLoads : String → Option PyVal) (data : PyVal) : List PyVal :=
  match data with
  | .null => []
  | .str s =>
    match jsonLoads s with
    | none => []
    | some w => unwrapShape w
  | w => unwrapShape w

/-- Embedding of `_parse_dashboard_list` (src/tools.py:284-336): normalize
the payload to a list of candidate records, then parse each record,
skipping any record whose parse raises (`filterMap`), never failing the
batch (src/tools.py:323-330). -/
def parse_dashboard_list (jsonLoads : String → Option PyVal) (data : PyVal) :
    List DashboardMetadata :=
  (normalize_payload jsonLoads data).filterMap (parse_dashboard jsonLoads)

/-! ### Data models (`src/models/result.py`, and the spec for the absent
`src/models/query.py`) -/

/-- Modelled from the spec: `src/models/query.py` (defining `TimeRange` and
`MetricsQuery`) is absent from the sources — only its importers are
present.  Per the data model of the spec, a `TimeRange` is a start instant and
an end instant (instants modelled as integers) with the invariant
start ≤ end. -/
structure TimeRange where
  start_time : Int
  end_time : Int
deriving DecidableEq, Repr

/-- Modelled from the spec: `TimeRange` construction enforces the invariant
start ≤ end; constructing a violating range fails (in Python, a raised
validation error). -/
def TimeRange.mk? (start_time end_time : Int) : Option TimeRange :=
  if start_time ≤ end_time then some ⟨start_time, end_time⟩ else none

/-- Embedding of `DataPoint` (src/models/result.py:19-31).  Timestamps are
instants modelled as integers; values are modelled as rationals (the
finiteness validator excludes NaN/infinity, so admitted values form an
ordered field). -/
structure DataPoint where
  timestamp : Int
  value : ℚ
deriving DecidableEq, Repr

/-- Ordering of datapoints by timestamp, the sort key of the
`sort_datapoints` validator. -/
def dpLE (a b : DataPoint) : Prop := a.timestamp ≤ b.timestamp

instance : DecidableRel dpLE := fun a b => inferInstanceAs (Decidable (a.timestamp ≤ b.timestamp))

instance : IsTotal DataPoint dpLE := ⟨fun a b => Int.le_total a.timestamp b.timestamp⟩

instance : IsTrans DataPoint dpLE := ⟨fun _ _ _ h1 h2 => Int.le_trans h1 h2⟩

/-- Embedding of the `sort_datapoints` field validator
(src/models/result.py:78-82): Python `sorted(v, key=lambda dp:
dp.timestamp)`, a stable ascending sort by timestamp. -/
def sort_datapoints (v : List DataPoint) : List DataPoint :=
  List.insertionSort dpLE v

/-- Embedding of `AggregationStats` (src/models/result.py:34-42). -/
structure AggregationStats where
  min : ℚ
  max : ℚ
  mean : ℚ
  median : ℚ
  sum : ℚ
  count : Nat
deriving DecidableEq, Repr

/-- Python `min` over a non-empty list (first minimal element). -/
def listMinQ : List ℚ → ℚ
  | [] => 0
  | h :: t => t.foldl (fun a b => if b < a then b else a) h

/-- Python `max` over a non-empty list (first maximal element). -/
def listMaxQ : List ℚ → ℚ
  | [] => 0
  | h :: t => t.foldl (fun a b => if b > a then b else a) h

/-- Embedding of `_median` (src/models/result.py:99-108), defined for
non-empty value lists (the source raises on an empty list, which its only
caller excludes). -/
def median (values : List ℚ) : ℚ :=
  let values_sorted := List.insertionSort (fun a b : ℚ => a ≤ b) values
  let n := values.length
  let mid := n / 2
  if n % 2 = 1 then values_sorted.getD mid 0
  else (values_sorted.getD (mid - 1) 0 + values_sorted.getD mid 0) / 2

/-- Embedding of `_calculate_stats` (src/models/result.py:110-122), defined
for non-empty datapoint lists. -/
def calculate_stats (datapoints : List DataPoint) : AggregationStats :=
  let values := datapoints.map (fun dp => dp.value)
  { min := listMinQ values
    max := listMaxQ values
    mean := values.sum / (values.length : ℚ)
    median := median values
    sum := values.sum
    count := values.length }

/-- Embedding of `MetricsQueryResult` (src/models/result.py:45-97). -/
structure MetricsQueryResult where
  metric_name : String
  unit : String
  time_range : TimeRange
  datapoints : List DataPoint
  aggregation_applied : Option String
  statistics : Option AggregationStats
  datapoint_count : Nat
  is_empty : Bool
deriving DecidableEq, Repr

/-- Construction of a `MetricsQueryResult` as pydantic performs it: the
`sort_datapoints` field validator sorts the incoming datapoint list, then
the `sync_counts` model validator (src/models/result.py:84-97) overwrites
`datapoint_count` and `is_empty` from the sorted list and lazily derives
`statistics` when absent and the result is non-empty.  The
caller-supplied `datapoint_count` and `is_empty` initial values are
accepted (as in the source) and then overwritten, so they are not
parameters here. -/
def MetricsQueryResult.make (metric_name unit : String) (time_range : TimeRange)
    (datapoints_input : List DataPoint) (aggregation_applied : Option String)
    (statistics_input : Option AggregationStats) : MetricsQueryResult :=
  let dps := sort_datapoints datapoints_input
  let count := dps.length
  let empty := count = 0
  { metric_name := metric_name
    unit := unit
    time_range := time_range
    datapoints := dps
    aggregation_applied := aggregation_applied
    statistics :=
      match statistics_input with
      | some s => some s
      | none => if empty then none else some (calculate_stats dps)
    datapoint_count := count
    is_empty := empty }

/-- Embedding of `QueryError` (src/models/result.py:158-200). -/
structure QueryError where
  error_type : String
  message : String
  suggestion : Option String := none
  details : Option String := none
deriving DecidableEq, Repr

/-! ### Time-range resolver (`src/agent/query_parser.py:86-148`) and its
exception boundary (`src/agent/metrics_agent.py:118-124`) -/

/-- Python `s.replace("Z", "+00:00")`: every `Z` replaced. -/
def replaceZ (s : String) : String :=
  String.mk (s.data.flatMap (fun c => if c = 'Z' then "+00:00".data else [c]))

/-- Python `time_data.get(key, "").strip()` for a JSON object: a missing
key defaults to `""`; a string value is stripped; a non-string value makes
`.strip()` raise (`none`). -/
def pyGetStrStripped (fields : List (String × PyVal)) (key : String) : Option String :=
  match pyLookup fields key with
  | none => some ""
  | some (.str s) => some (pyStrip s)
  | some _ => none

/-- Embedding of `convert_relative_time` (src/agent/query_parser.py:86-148)
as a function of the raw language-model reply `response_text`.
`jsonLoads` is the `json.loads` oracle and `parseDt` the
`datetime.fromisoformat` oracle (instants as integers; `none` = raised
`ValueError`).  Every exception raised in the source body is caught by its
`except` clauses and re-raised as `QueryParsingError`, embedded here as
`.error` carrying the wrapped message (library-generated inner text
abbreviated).  The final `TimeRange` construction is spec-modelled via
`TimeRange.mk?`; its validation failure is caught by the same handlers. -/
def convert_relative_time (jsonLoads : String → Option PyVal)
    (parseDt : String → Option Int) (response_text : String) : Except String TimeRange :=
  let json_start := pyFindChar obraceC response_text.data
  let json_end := pyRfindChar cbraceC response_text.data + 1
  if json_start == -1 || json_end == 0 then
    .error "Could not convert time range: No JSON found in LLM response for time conversion"
  else
    match jsonLoads (String.mk (pySlice response_text.data json_start json_end)) with
    | none => .error "Failed to parse time conversion response"
    | some timeData =>
      match timeData with
      | .dict fields =>
        match pyGetStrStripped fields "start_time", pyGetStrStripped fields "end_time" with
        | some start_str, some end_str =>
          if start_str = "" || end_str = "" then
            .error "Could not convert time range: start_time or end_time not found in LLM response"
          else
            match parseDt (replaceZ start_str), parseDt (replaceZ end_str) with
            | some start_time, some end_time =>
              match TimeRange.mk? start_time end_time with
              | some tr => .ok tr
              | none => .error "Error converting time range: invalid time range"
            | _, _ => .error "Could not convert time range: invalid isoformat string"
        | _, _ => .error "Error converting time range: attribute error"
      | _ => .error "Error converting time range: attribute error"

/-- The exception-to-`QueryError` boundary of the metrics agent
(src/agent/metrics_agent.py:118-124): any exception raised during question
parsing becomes a `parsing_error` `QueryError` carrying a fixed rephrase
suggestion. -/
def parsing_failure_to_query_error (e : String) : QueryError :=
  { error_type := "parsing_error"
    message := "Could not parse your question: " ++ e
    suggestion := some ("Try phrasing as: " ++ String.singleton aposC
      ++ "Show [metric_name] for [time_period]" ++ String.singleton aposC)
    details := none }

/-! ### Claim-side definitions

These definitions follow the words of the claims of the spec (not the source);
each claim theorem compares them against the source embeddings above. -/

/-- Follows the words of claim C2: lowercase the query, return List on any
list-keyword substring, else Filter on any filter-keyword substring, else
GetInfo when both a dashboard-context word and an info-question word
occur, else Unknown. -/
def spec_classify (query : String) : String :=
  let q := strLower query
  if ["show all", "list", "give me", "what dashboards", "all dashboards"].any
      (fun k => strContains q k) then "list"
  else if ["with", "where", "filter", "search", "matching", "related"].any
      (fun k => strContains q k) then "filter"
  else if (dashboardContextTerms.any (fun t => strContains q t)) &&
          (infoKeywords.any (fun k => strContains q k)) then "get_info"
  else "unknown"

/-- Follows the words of claim C10: the fixed out-of-scope phrase set. -/
def spec_scope_phrases : List String :=
  ["cannot",
   "can" ++ String.singleton aposC ++ "t",
   "not able to",
   "not able",
   "out of scope",
   "i cannot",
   "i can" ++ String.singleton aposC ++ "t"]

/-- Prefix of `l` up to (excluding) the first occurrence of `c`. -/
def takeUntil (c : Char) : List Char → List Char
  | [] => []
  | a :: t => if a = c then [] else a :: takeUntil c t

/-- Remainder of `l` after (and excluding) the first occurrence of `c`
(`[]` when `c` does not occur). -/
def dropThrough (c : Char) : List Char → List Char
  | [] => []
  | a :: t => if a = c then t else dropThrough c t

/-- Content between the first quote character of kind `c` and the next
occurrence of `c` (everything after the first occurrence when unmatched). -/
def betweenFirst (c : Char) (l : List Char) : List Char :=
  takeUntil c (dropThrough c l)

/-- Content between the first positionally-matching pair of quote
characters (single or double), per the words of claim C3: the first quote
character that is matched by a later quote of the same kind opens the
pair, and the term is the content up to that closing quote. -/
def firstMatchingQuotePair : List Char → Option (List Char)
  | [] => none
  | c :: t =>
    if (c = aposC || c = dqC) && t.contains c then
      some (t.takeWhile (fun a => a ≠ c))
    else firstMatchingQuotePair t

/-- Remove `sfx` from the end of `l` when it is a suffix, else keep `l`. -/
def stripTrailingSfx (sfx : List Char) (l : List Char) : List Char :=
  if sfx.isSuffixOf l then l.take (l.length - sfx.length) else l

/-- The last one-or-two whitespace-delimited tokens of the query, joined
with a space and stripped of surrounding quote characters (the shared
final fallback of claim C3 and its amendment). -/
def lastTokensStripped (query : String) : String :=
  let words := pyWords query
  String.mk (stripWhile isQuoteC
    (String.intercalate " " ((words.drop (words.length - 2)).map String.mk)).data)

/-- Follows the words of claim C3 as stated: first the content between the
first pair of matching single or double quotes; else, when the query
contains the literal word `with`, the text after the first `with` with a
trailing `in the name` / `in name` suffix stripped (whitespace-trimmed);
else the last one-or-two whitespace-delimited tokens with surrounding
quote characters stripped. -/
def claimed_filter_term (query : String) : String :=
  match firstMatchingQuotePair query.data with
  | some content => String.mk content
  | none =>
    match afterSub "with".data query.data with
    | some after =>
      String.mk (stripWhile isWs
        (stripTrailingSfx inNameSuffix
          (stripTrailingSfx inTheNameSuffix (stripWhile isWs after))))
    | none => lastTokensStripped query

/-- Follows the words of the amended claim C3: if the query contains a
single-quote character, the content between the first and second single
quotes (to the end of the string when unmatched); else the same for double
quotes; else, when the lowercased query contains the substring `with`, the
lowercased text after its first occurrence with every `" in the name"` and
then `" in name"` occurrence removed and surrounding whitespace stripped;
else, for queries of more than two words, the last two
whitespace-delimited tokens stripped of surrounding quote characters;
else the whitespace-stripped query. -/
def amended_filter_term (query : String) : String :=
  if query.data.contains aposC then
    String.mk (betweenFirst aposC query.data)
  else if query.data.contains dqC then
    String.mk (betweenFirst dqC query.data)
  else if strContains (strLower query) "with" then
    String.mk (stripWhile isWs
      (removeAllSub inNameSuffix
        (removeAllSub inTheNameSuffix
          (stripWhile isWs ((afterSub "with".data (strLower query).data).getD [])))))
  else if (pyWords query).length > 2 then
    lastTokensStripped query
  else
    pyStrip query

/-- Output ends in a whitespace character (for the trailing-trim part of
claim C6). -/
def hasTrailingWs (s : String) : Bool :=
  match s.data.getLast? with
  | some c => isWs c
  | none => false

/-! ### Helper lemmas -/

theorem dropWhile_eq_nil_of_all (p : Char → Bool) (l : List Char)
    (h : ∀ c ∈ l, p c = true) : l.dropWhile p = [] := by
  induction l with
  | nil => rfl
  | cons a t ih =>
    rw [List.dropWhile_cons]
    simp only [h a (List.mem_cons_self a t), if_true]
    exact ih (fun c hc => h c (List.mem_cons_of_mem a hc))

theorem pyStrip_eq_empty (s : String) (h : ∀ c ∈ s.data, isWs c = true) :
    pyStrip s = "" := by
  unfold pyStrip stripWhile
  rw [dropWhile_eq_nil_of_all isWs s.data h]
  rfl

theorem stripWhile_getLast_not (p : Char → Bool) (l : List Char) (c : Char)
    (h : (stripWhile p l).getLast? = some c) : p c = false := by
  unfold stripWhile at h
  rw [List.getLast?_reverse] at h
  rcases hd : ((l.dropWhile p).reverse).dropWhile p with _ | ⟨a, t⟩
  · rw [hd] at h; exact absurd h (by simp)
  · rw [hd] at h
    simp only [List.head?_cons, Option.some.injEq] at h
    subst h
    have := List.head?_dropWhile_not p (l.dropWhile p).reverse
    rw [hd] at this
    simpa using this

/-! ### C2 — heuristic intent classifier -/

/-- C2: for every query, the heuristic classifier lowercases it and tests
the fixed keyword sets in priority order (list-keywords, then
filter-keywords, then dashboard-context AND info-question words, else
Unknown); in particular a query containing both a list-keyword and a
filter-keyword classifies as List.  Classification is a total Lean
function, so it never raises. -/
theorem claim_c2_intent_classifier :
    (∀ q : String, extract_intent q = spec_classify q)
    ∧ (∀ q : String,
        listKeywords.any (fun k => strContains (strLower q) k) = true →
        filterKeywords.any (fun k => strContains (strLower q) k) = true →
        extract_intent q = "list") := by
  constructor
  · intro q
    rfl
  · intro q hList _hFilter
    unfold extract_intent
    simp only [hList, if_true]

/-- Witness for C2 at a concrete query containing both a list-keyword and a
filter-keyword. -/
theorem claim_c2_witness : extract_intent "list dashboards with prod" = "list" :=
  claim_c2_intent_classifier.2 "list dashboards with prod" (by decide) (by decide)

/-! ### C10 — out-of-scope judgment ignores the query -/

/-- C10: the out-of-scope judgment depends only on the model response
text — for every response and every pair of queries the verdict is equal —
and it is true exactly when the lowercased response contains one of the
fixed phrases. -/
theorem claim_c10_scope_guard :
    (∀ (r q1 q2 : String), is_out_of_scope r q1 = is_out_of_scope r q2)
    ∧ (∀ (r q : String),
        is_out_of_scope r q
          = spec_scope_phrases.any (fun k => strContains (strLower r) k)) :=
  ⟨fun _ _ _ => rfl, fun _ _ => rfl⟩

/-! ### C4 — empty or whitespace-only query -/

/-- C4: a query that is empty or whitespace-only yields status `invalid`
with the fixed guidance message and error code `empty_query`, and neither
the language model nor any retrieval-gateway operation is invoked. -/
theorem claim_c4_empty_query :
    ∀ (q : String) (llm : String → String) (tools : ToolOracle),
      (∀ c ∈ q.data, isWs c = true) →
      agent_node q llm tools =
        { response := emptyQueryMsg, status := "invalid",
          error_code := some "empty_query", intent := none, dataOut := none,
          llmCalled := false, listCalled := false, searchCalled := none } := by
  intro q llm tools h
  unfold agent_node
  simp only [pyStrip_eq_empty q h, if_true]

/-- Witness for C4 at a concrete whitespace-only query and concrete
oracles. -/
theorem claim_c4_witness :
    agent_node "   " (fun _ => "reply") ⟨.ok [], fun _ => .ok []⟩ =
      { response := emptyQueryMsg, status := "invalid",
        error_code := some "empty_query", intent := none, dataOut := none,
        llmCalled := false, listCalled := false, searchCalled := none } :=
  claim_c4_empty_query "   " (fun _ => "reply") ⟨.ok [], fun _ => .ok []⟩ (by decide)

/-! ### C9 — MetricsQueryResult construction invariants -/

/-- C9: for every input datapoint list in any order, a constructed
`MetricsQueryResult` holds the same datapoints (a permutation of the
input) sorted ascending by timestamp, `datapoint_count` equals the length
of the held sequence, and `is_empty` holds exactly when that length is
zero. -/
theorem claim_c9_result_invariants :
    ∀ (metric_name unit : String) (tr : TimeRange) (input : List DataPoint)
      (agg : Option String) (stats : Option AggregationStats),
      List.Sorted dpLE
          (MetricsQueryResult.make metric_name unit tr input agg stats).datapoints
      ∧ (MetricsQueryResult.make metric_name unit tr input agg stats).datapoints.Perm
          input
      ∧ (MetricsQueryResult.make metric_name unit tr input agg stats).datapoint_count
          = (MetricsQueryResult.make metric_name unit tr input agg stats).datapoints.length
      ∧ ((MetricsQueryResult.make metric_name unit tr input agg stats).is_empty = true
          ↔ (MetricsQueryResult.make metric_name unit tr input agg stats).datapoints.length = 0) := by
  intro metric_name unit tr input agg stats
  refine ⟨?_, ?_, rfl, ?_⟩
  · exact List.sorted_insertionSort dpLE input
  · exact List.perm_insertionSort dpLE input
  · simp [MetricsQueryResult.make]

/-! ### C1 — orchestrator dispatch after the scope guard -/

/-- Counterexample to C1 as stated: the concrete in-scope query
`"when was the api dashboard updated"` classifies as GetInfo, yet the
orchestrator returns the guidance response with status `invalid` and never
attempts retrieval — contradicting the claim that all four intents
(including GetInfo) proceed to retrieval with no error or guidance
response. -/
theorem claim_c1_counterexample :
    extract_intent "when was the api dashboard updated" = "get_info"
    ∧ (agent_node "when was the api dashboard updated"
        (fun _ => "Here are the dashboards.") ⟨.ok [], fun _ => .ok []⟩).status = "invalid"
    ∧ (agent_node "when was the api dashboard updated"
        (fun _ => "Here are the dashboards.") ⟨.ok [], fun _ => .ok []⟩).error_code
        = some "invalid_query"
    ∧ (agent_node "when was the api dashboard updated"
        (fun _ => "Here are the dashboards.") ⟨.ok [], fun _ => .ok []⟩).listCalled = false
    ∧ (agent_node "when was the api dashboard updated"
        (fun _ => "Here are the dashboards.") ⟨.ok [], fun _ => .ok []⟩).searchCalled = none := by
  refine ⟨by decide, ?_, ?_, ?_, ?_⟩ <;> decide

/-- C1 (amended): for every non-empty query that passes the scope guard,
the orchestrator proceeds to retrieval for List, Filter and Unknown —
Unknown treated exactly as List (retrieval of all dashboards) — while
GetInfo yields the fixed guidance response with status `invalid` and error
code `invalid_query`, with no retrieval attempted. -/
theorem claim_c1_intent_dispatch :
    ∀ (q : String) (llm : String → String) (tools : ToolOracle),
      pyStrip q ≠ "" →
      is_out_of_scope (llm (pyStrip q)) (pyStrip q) = false →
      ((extract_intent (pyStrip q) = "list" ∨ extract_intent (pyStrip q) = "unknown" →
          (agent_node q llm tools).listCalled = true
          ∧ (agent_node q llm tools).searchCalled = none)
       ∧ (extract_intent (pyStrip q) = "filter" →
          (agent_node q llm tools).searchCalled = some (extract_filter_term (pyStrip q))
          ∧ (agent_node q llm tools).listCalled = false)
       ∧ (extract_intent (pyStrip q) = "get_info" →
          agent_node q llm tools =
            { response := guidanceMsg, status := "invalid",
              error_code := some "invalid_query", intent := some "unknown",
              dataOut := none, llmCalled := true, listCalled := false,
              searchCalled := none })) := by
  intro q llm tools h1 h2
  refine ⟨?_, ?_, ?_⟩
  · intro hi
    cases hi with
    | inl hi =>
      cases hL : tools.list_dashboards with
      | ok ds => simp [agent_node, h1, h2, hi, hL]
      | error e => cases e <;> simp [agent_node, h1, h2, hi, hL]
    | inr hi =>
      cases hL : tools.list_dashboards with
      | ok ds => simp [agent_node, h1, h2, hi, hL]
      | error e => cases e <;> simp [agent_node, h1, h2, hi, hL]
  · intro hi
    cases hS : tools.search_dashboards (extract_filter_term (pyStrip q)) with
    | ok ds => simp [agent_node, h1, h2, hi, hS]
    | error e => cases e <;> simp [agent_node, h1, h2, hi, hS]
  · intro hi
    simp [agent_node, h1, h2, hi]

/-- Witness for C1 (amended) at a concrete list-intent query with concrete
oracles. -/
theorem claim_c1_witness :
    (agent_node "list dashboards" (fun _ => "Here are the dashboards.")
        ⟨.ok [], fun _ => .ok []⟩).listCalled = true
    ∧ (agent_node "list dashboards" (fun _ => "Here are the dashboards.")
        ⟨.ok [], fun _ => .ok []⟩).searchCalled = none :=
  (claim_c1_intent_dispatch "list dashboards" (fun _ => "Here are the dashboards.")
      ⟨.ok [], fun _ => .ok []⟩ (by decide) (by decide)).1 (Or.inl (by decide))

/-! ### C5 — resolver failure modes map to parsing_error QueryErrors -/

/-- C5: every failure mode of the time-range resolver — no `{...}`
substring, JSON parse failure, `start_time`/`end_time` missing or empty,
datetime parse failure — yields a typed error value (never an escaping
exception: the embedding is total), and the metrics-agent boundary maps
any such error to a `parsing_error` `QueryError` carrying a rephrase
suggestion. -/
theorem claim_c5_resolver_failures :
    (∀ e : String,
        (parsing_failure_to_query_error e).error_type = "parsing_error"
        ∧ (parsing_failure_to_query_error e).suggestion.isSome = true)
    ∧ (∀ (j : String → Option PyVal) (p : String → Option Int) (reply : String),
        pyFindChar obraceC reply.data = -1 ∨ pyRfindChar cbraceC reply.data = -1 →
        ∃ e, convert_relative_time j p reply = .error e)
    ∧ (∀ (j : String → Option PyVal) (p : String → Option Int) (reply : String),
        j (String.mk (pySlice reply.data (pyFindChar obraceC reply.data)
            (pyRfindChar cbraceC reply.data + 1))) = none →
        ∃ e, convert_relative_time j p reply = .error e)
    ∧ (∀ (j : String → Option PyVal) (p : String → Option Int) (reply : String)
        (fields : List (String × PyVal)),
        j (String.mk (pySlice reply.data (pyFindChar obraceC reply.data)
            (pyRfindChar cbraceC reply.data + 1))) = some (.dict fields) →
        pyGetStrStripped fields "start_time" = some ""
          ∨ pyGetStrStripped fields "end_time" = some "" →
        ∃ e, convert_relative_time j p reply = .error e)
    ∧ (∀ (j : String → Option PyVal) (p : String → Option Int) (reply : String)
        (fields : List (String × PyVal)) (s1 s2 : String),
        j (String.mk (pySlice reply.data (pyFindChar obraceC reply.data)
            (pyRfindChar cbraceC reply.data + 1))) = some (.dict fields) →
        pyGetStrStripped fields "start_time" = some s1 →
        pyGetStrStripped fields "end_time" = some s2 →
        p (replaceZ s1) = none ∨ p (replaceZ s2) = none →
        ∃ e, convert_relative_time j p reply = .error e) := by
  refine ⟨fun e => ⟨rfl, rfl⟩, ?_, ?_, ?_, ?_⟩
  · intro j p reply h
    rcases h with h | h <;>
      exact ⟨"Could not convert time range: No JSON found in LLM response for time conversion",
        by simp [convert_relative_time, h]⟩
  · intro j p reply hj
    by_cases hc :
        (pyFindChar obraceC reply.data == -1
          || pyRfindChar cbraceC reply.data + 1 == 0) = true
    · exact ⟨"Could not convert time range: No JSON found in LLM response for time conversion",
        by simp [convert_relative_time, hc]⟩
    · exact ⟨"Failed to parse time conversion response",
        by simp [convert_relative_time, hc, hj]⟩
  · intro j p reply fields hj hfield
    by_cases hc :
        (pyFindChar obraceC reply.data == -1
          || pyRfindChar cbraceC reply.data + 1 == 0) = true
    · exact ⟨"Could not convert time range: No JSON found in LLM response for time conversion",
        by simp [convert_relative_time, hc]⟩
    · rcases hfield with hf | hf
      · cases hOther : pyGetStrStripped fields "end_time" with
        | none =>
          exact ⟨"Error converting time range: attribute error",
            by simp [convert_relative_time, hc, hj, hf, hOther]⟩
        | some s2 =>
          exact ⟨"Could not convert time range: start_time or end_time not found in LLM response",
            by simp [convert_relative_time, hc, hj, hf, hOther]⟩
      · cases hOther : pyGetStrStripped fields "start_time" with
        | none =>
          exact ⟨"Error converting time range: attribute error",
            by simp [convert_relative_time, hc, hj, hf, hOther]⟩
        | some s1 =>
          exact ⟨"Could not convert time range: start_time or end_time not found in LLM response",
            by simp [convert_relative_time, hc, hj, hf, hOther]⟩
  · intro j p reply fields s1 s2 hj h1 h2 hp
    by_cases hc :
        (pyFindChar obraceC reply.data == -1
          || pyRfindChar cbraceC reply.data + 1 == 0) = true
    · exact ⟨"Could not convert time range: No JSON found in LLM response for time conversion",
        by simp [convert_relative_time, hc]⟩
    · by_cases hs1 : s1 = ""
      · exact ⟨"Could not convert time range: start_time or end_time not found in LLM response",
          by simp [convert_relative_time, hc, hj, h1, h2, hs1]⟩
      · by_cases hs2 : s2 = ""
        · exact ⟨"Could not convert time range: start_time or end_time not found in LLM response",
            by simp [convert_relative_time, hc, hj, h1, h2, hs1, hs2]⟩
        · rcases hp with hp | hp
          · cases hPo : p (replaceZ s2) with
            | none =>
              exact ⟨"Could not convert time range: invalid isoformat string",
                by simp [convert_relative_time, hc, hj, h1, h2, hs1, hs2, hp, hPo]⟩
            | some t2 =>
              exact ⟨"Could not convert time range: invalid isoformat string",
                by simp [convert_relative_time, hc, hj, h1, h2, hs1, hs2, hp, hPo]⟩
          · cases hPo : p (replaceZ s1) with
            | none =>
              exact ⟨"Could not convert time range: invalid isoformat string",
                by simp [convert_relative_time, hc, hj, h1, h2, hs1, hs2, hp, hPo]⟩
            | some t1 =>
              exact ⟨"Could not convert time range: invalid isoformat string",
                by simp [convert_relative_time, hc, hj, h1, h2, hs1, hs2, hp, hPo]⟩

/-- Witness for C5 at a concrete brace-free reply and concrete oracles. -/
theorem claim_c5_witness :
    ∃ e, convert_relative_time (fun _ => none) (fun _ => none) "no json here"
      = .error e :=
  claim_c5_resolver_failures.2.1 (fun _ => none) (fun _ => none) "no json here"
    (Or.inl (by decide))

/-! ### C8 — a successfully resolved time range is ordered -/

/-- C8: whenever the time-range resolver succeeds, the produced range
satisfies start ≤ end.  (`TimeRange` and its construction-time invariant
are modelled from the spec, `src/models/query.py` being absent from the
sources; the embedding of the resolver routes construction through
`TimeRange.mk?`.) -/
theorem claim_c8_time_range_ordered :
    ∀ (j : String → Option PyVal) (p : String → Option Int) (reply : String)
      (tr : TimeRange),
      convert_relative_time j p reply = .ok tr →
      tr.start_time ≤ tr.end_time := by
  intro j p reply tr h
  by_cases hc :
      (pyFindChar obraceC reply.data == -1
        || pyRfindChar cbraceC reply.data + 1 == 0) = true
  · simp [convert_relative_time, hc] at h
  · cases hJ : j (String.mk (pySlice reply.data (pyFindChar obraceC reply.data)
        (pyRfindChar cbraceC reply.data + 1))) with
    | none => simp [convert_relative_time, hc, hJ] at h
    | some timeData =>
      cases timeData with
      | dict fields =>
        cases hS : pyGetStrStripped fields "start_time" with
        | none => simp [convert_relative_time, hc, hJ, hS] at h
        | some s1 =>
          cases hE : pyGetStrStripped fields "end_time" with
          | none => simp [convert_relative_time, hc, hJ, hS, hE] at h
          | some s2 =>
            by_cases hEmpty : s1 = "" ∨ s2 = ""
            · simp [convert_relative_time, hc, hJ, hS, hE, hEmpty] at h
            · cases hP1 : p (replaceZ s1) with
              | none => simp [convert_relative_time, hc, hJ, hS, hE, hEmpty, hP1] at h
              | some t1 =>
                cases hP2 : p (replaceZ s2) with
                | none =>
                  simp [convert_relative_time, hc, hJ, hS, hE, hEmpty, hP1, hP2] at h
                | some t2 =>
                  by_cases hle : t1 ≤ t2
                  · simp [convert_relative_time, hc, hJ, hS, hE, hEmpty, hP1, hP2,
                      TimeRange.mk?, hle] at h
                    rw [← h]
                    exact hle
                  · simp [convert_relative_time, hc, hJ, hS, hE, hEmpty, hP1, hP2,
                      TimeRange.mk?, hle] at h
      | null => simp [convert_relative_time, hc, hJ] at h
      | bool b => simp [convert_relative_time, hc, hJ] at h
      | int n => simp [convert_relative_time, hc, hJ] at h
      | str s => simp [convert_relative_time, hc, hJ] at h
      | list xs => simp [convert_relative_time, hc, hJ] at h

/-- Witness for C8 at concrete oracles producing a successful resolution. -/
theorem claim_c8_witness :
    ∃ tr : TimeRange,
      convert_relative_time
        (fun _ => some (.dict [("start_time", .str "a"), ("end_time", .str "ab")]))
        (fun s => some (s.length : Int))
        (String.singleton obraceC ++ String.singleton cbraceC) = .ok tr
      ∧ tr.start_time ≤ tr.end_time := by
  have hEq :
      convert_relative_time
        (fun _ => some (.dict [("start_time", .str "a"), ("end_time", .str "ab")]))
        (fun s => some (s.length : Int))
        (String.singleton obraceC ++ String.singleton cbraceC)
        = .ok ⟨1, 2⟩ := by rfl
  exact ⟨⟨1, 2⟩, hEq,
    claim_c8_time_range_ordered _ _ _ _ hEq⟩

/-! ### C6 — deterministic record-list formatting -/

/-- C6: the formatter is a pure function of its input (a total Lean
function).  An empty list yields the fixed literal `"No dashboards
found."`; the filter-intent empty case (produced at the orchestrator
call site, src/agent.py:154-157) yields the no-match message with the
quoted term.  A non-empty list of length N yields the header
`"Found N dashboard(s):"` followed by exactly N 1-based numbered entry
blocks, each opening with the title of its record verbatim, with the Folder and
Tags lines present exactly when those fields are (truthily) present, and
the final output has its surrounding whitespace trimmed. -/
theorem claim_c6_formatter :
    (format_dashboard_list [] = "No dashboards found.")
    ∧ (∀ (q : String) (llm : String → String) (tools : ToolOracle),
        pyStrip q ≠ "" →
        is_out_of_scope (llm (pyStrip q)) (pyStrip q) = false →
        extract_intent (pyStrip q) = "filter" →
        tools.search_dashboards (extract_filter_term (pyStrip q)) = .ok [] →
        (agent_node q llm tools).response
          = noMatchMsg (extract_filter_term (pyStrip q)))
    ∧ (∀ (l : List DashboardMetadata), l ≠ [] →
        format_dashboard_list l
          = String.mk (stripWhile isWs (String.intercalate "\n" (dash_lines l)).data))
    ∧ (∀ (l : List DashboardMetadata), (dash_lines l).head?
        = some ("Found " ++ toString l.length ++ " dashboard(s):\n"))
    ∧ (∀ (l : List DashboardMetadata), dash_lines l
        = ("Found " ++ toString l.length ++ " dashboard(s):\n")
          :: (l.enum.map (fun p => entry_block (p.1 + 1) p.2)).flatten)
    ∧ (∀ (l : List DashboardMetadata),
        (l.enum.map (fun p => entry_block (p.1 + 1) p.2)).length = l.length)
    ∧ (∀ (l : List DashboardMetadata) (i : Nat), i < l.length →
        ((l.enum.map (fun p => entry_block (p.1 + 1) p.2)).getD i []).head?
          = some (toString (i + 1) ++ ". "
              ++ (l.getD i ⟨"", "", "", "", none, [], 1, false⟩).title))
    ∧ (∀ (n : Nat) (d : DashboardMetadata),
        (entry_block n d).length
          = 3 + (match d.folder_title with
                 | some f => if f = "" then 0 else 1
                 | none => 0)
              + (if d.tags = [] then 0 else 1))
    ∧ (∀ (l : List DashboardMetadata), hasTrailingWs (format_dashboard_list l) = false) := by
  refine ⟨rfl, ?_, ?_, ?_, ?_, ?_, ?_, ?_, ?_⟩
  · intro q llm tools h1 h2 hi hS
    simp [agent_node, h1, h2, hi, hS]
  · intro l h
    simp [format_dashboard_list, h, pyStrip]
  · intro l
    rfl
  · intro l
    simp [dash_lines, List.flatMap_def]
  · intro l
    simp [List.length_map, List.enum_length]
  · intro l i h
    have hget : l.get? i = some (l.get ⟨i, h⟩) := List.get?_eq_get h
    have henum : l.enum.get? i = some (i, l.get ⟨i, h⟩) := by
      rw [List.get?_enum, hget]
      rfl
    have hmap : (l.enum.map (fun p => entry_block (p.1 + 1) p.2)).get? i
        = some (entry_block (i + 1) (l.get ⟨i, h⟩)) := by
      rw [List.get?_map, henum]
      rfl
    rw [List.getD_eq_get?, hmap]
    have hgd : l.getD i ⟨"", "", "", "", none, [], 1, false⟩ = l.get ⟨i, h⟩ := by
      rw [List.getD_eq_get?, hget]
      rfl
    rw [hgd]
    rfl
  · intro n d
    cases hf : d.folder_title with
    | none => by_cases ht : d.tags = [] <;> simp [entry_block, hf, ht]
    | some f =>
      by_cases hfe : f = "" <;> by_cases ht : d.tags = [] <;>
        simp [entry_block, hf, hfe, ht]
  · intro l
    cases l with
    | nil => decide
    | cons a t =>
      show hasTrailingWs (String.mk (stripWhile isWs _)) = false
      unfold hasTrailingWs
      cases hL : (stripWhile isWs
          (String.intercalate "\n" (dash_lines (a :: t))).data).getLast? with
      | none => simp [hL]
      | some c =>
        simp only [hL]
        exact stripWhile_getLast_not isWs _ c hL

/-- Witness for the C6 filter-intent empty case at concrete inputs. -/
theorem claim_c6_witness :
    (agent_node "dashboards with prod" (fun _ => "All good.")
        ⟨.ok [], fun _ => .ok []⟩).response
      = noMatchMsg (extract_filter_term (pyStrip "dashboards with prod")) :=
  claim_c6_formatter.2.1 "dashboards with prod" (fun _ => "All good.")
    ⟨.ok [], fun _ => .ok []⟩ (by decide) (by decide) (by decide) rfl

/-! ### C7 — retrieval payload normalization -/

/-- C7: payload normalization attempts a JSON-decode only for string-typed
payloads (for non-strings the result does not depend on the decode
oracle); a dict payload is unwrapped under `"dashboards"` first, else
`"results"`, else treated as a single record; any remaining non-list value
is wrapped as a one-element list; and records that fail per-record parsing
are skipped while the rest are returned (`filterMap`), never failing the
batch. -/
theorem claim_c7_payload_normalization :
    (∀ (j1 j2 : String → Option PyVal) (v : PyVal), (∀ s, v ≠ .str s) →
        normalize_payload j1 v = normalize_payload j2 v)
    ∧ (∀ (j : String → Option PyVal) (s : String),
        normalize_payload j (.str s)
          = match j s with | none => [] | some w => unwrapShape w)
    ∧ (∀ (f : List (String × PyVal)) (x : PyVal), pyLookup f "dashboards" = some x →
        unwrapShape (.dict f) = match x with | .list xs => xs | y => [y])
    ∧ (∀ (f : List (String × PyVal)) (x : PyVal), pyLookup f "dashboards" = none →
        pyLookup f "results" = some x →
        unwrapShape (.dict f) = match x with | .list xs => xs | y => [y])
    ∧ (∀ (f : List (String × PyVal)), pyLookup f "dashboards" = none →
        pyLookup f "results" = none → unwrapShape (.dict f) = [.dict f])
    ∧ (∀ (w : PyVal), (∀ xs, w ≠ .list xs) → (∀ f, w ≠ .dict f) →
        unwrapShape w = [w])
    ∧ (∀ (j : String → Option PyVal) (xs : List PyVal),
        parse_dashboard_list j (.list xs) = xs.filterMap (parse_dashboard j)) := by
  refine ⟨?_, ?_, ?_, ?_, ?_, ?_, ?_⟩
  · intro j1 j2 v hv
    cases v with
    | str s => exact absurd rfl (hv s)
    | null => rfl
    | bool b => rfl
    | int n => rfl
    | list xs => rfl
    | dict f => rfl
  · intro j s
    rfl
  · intro f x hx
    cases x <;> simp [unwrapShape, hx]
  · intro f x h1 h2
    cases x <;> simp [unwrapShape, h1, h2]
  · intro f h1 h2
    simp [unwrapShape, h1, h2]
  · intro w hl hd
    cases w with
    | list xs => exact absurd rfl (hl xs)
    | dict f => exact absurd rfl (hd f)
    | null => rfl
    | bool b => rfl
    | int n => rfl
    | str s => rfl
  · intro j xs
    rfl

/-- Witness for C7: oracle-independence at a non-string payload, and
priority unwrapping of the `"dashboards"` key, at concrete inputs. -/
theorem claim_c7_witness :
    normalize_payload (fun _ => some .null) .null
      = normalize_payload (fun _ => none) .null
    ∧ unwrapShape (.dict [("dashboards", .list [.int 3])]) = [.int 3] :=
  ⟨claim_c7_payload_normalization.1 (fun _ => some .null) (fun _ => none) .null
      (fun _ h => PyVal.noConfusion h),
   claim_c7_payload_normalization.2.2.1 [("dashboards", .list [.int 3])]
      (.list [.int 3]) rfl⟩

/-! ### C3 — filter-term extraction -/

theorem pySplitChar_ne_nil (c : Char) (l : List Char) : pySplitChar c l ≠ [] := by
  induction l with
  | nil => simp [pySplitChar]
  | cons a t ih =>
    by_cases h : a = c
    · simp [pySplitChar, h]
    · cases hr : pySplitChar c t <;> simp [pySplitChar, h, hr]

theorem pySplitChar_head (c : Char) (l : List Char) :
    (pySplitChar c l)[0]?.getD [] = takeUntil c l := by
  induction l with
  | nil => rfl
  | cons a t ih =>
    by_cases h : a = c
    · simp [pySplitChar, takeUntil, h]
    · cases hr : pySplitChar c t with
      | nil =>
        rw [hr] at ih
        simp [pySplitChar, takeUntil, h, hr, ← ih]
      | cons x r =>
        rw [hr] at ih
        simp [pySplitChar, takeUntil, h, hr, ← ih]

theorem pySplitChar_getD_one (c : Char) (l : List Char) (h : l.contains c = true) :
    (pySplitChar c l)[1]?.getD [] = betweenFirst c l := by
  induction l with
  | nil => simp [List.contains] at h
  | cons a t ih =>
    by_cases hac : a = c
    · have h0 := pySplitChar_head c t
      simp [pySplitChar, betweenFirst, dropThrough, hac, h0]
    · have hmem : c ∈ a :: t := List.elem_iff.mp h
      have ht : t.contains c = true := by
        rcases List.mem_cons.mp hmem with h' | h'
        · exact absurd h'.symm hac
        · exact List.elem_iff.mpr h'
      cases hr : pySplitChar c t with
      | nil => exact absurd hr (pySplitChar_ne_nil c t)
      | cons x r =>
        have hrec := ih ht
        rw [hr] at hrec
        simp only [betweenFirst, dropThrough, if_neg hac]
        simp only [betweenFirst] at hrec
        simp [pySplitChar, if_neg hac, hr]
        simpa using hrec

theorem afterSub_isSome (pat : List Char) (l : List Char) :
    (afterSub pat l).isSome = hasInfix l pat := by
  induction l with
  | nil => cases pat <;> simp [afterSub, hasInfix, isPrefixB]
  | cons a t ih =>
    by_cases h : isPrefixB pat (a :: t) = true
    · simp [afterSub, hasInfix, h]
    · simp only [afterSub, hasInfix]
      rw [if_neg (by simpa using h)]
      simp [Bool.eq_false_iff.mpr h, ih]

/-- Counterexample to C3 as stated: the filter query
`"dashboards with PROD in the name"` has no quotes, so the chain of the claim
takes the `"with"` branch and yields the case-preserved term `"PROD"`,
while the code splits the lowercased query and returns `"prod"`. -/
theorem claim_c3_counterexample :
    extract_intent "dashboards with PROD in the name" = "filter"
    ∧ claimed_filter_term "dashboards with PROD in the name" = "PROD"
    ∧ extract_filter_term "dashboards with PROD in the name" = "prod"
    ∧ claimed_filter_term "dashboards with PROD in the name"
        ≠ extract_filter_term "dashboards with PROD in the name" :=
  ⟨by decide, by decide, by decide, by decide⟩

/-- C3 (amended): the extracted search term follows the priority chain
with single-quote splitting first (triggered by any single-quote
occurrence, taking the content up to the next single quote or the end),
then double-quote splitting likewise, then — when the lowercased query
contains `"with"` — the lowercased text after the first `"with"` with
every `" in the name"`/`" in name"` occurrence removed and whitespace
stripped, then the last two whitespace tokens (stripped of quote
characters) for queries of more than two words, else the stripped query;
and the scenario query (dashboards with single-quoted prod api in the name) yields
exactly `"prod api"` (quoted extraction beats the `"with"` fallback). -/
theorem claim_c3_filter_term :
    (∀ q : String, extract_filter_term q = amended_filter_term q)
    ∧ extract_filter_term ("dashboards with " ++ String.singleton aposC
        ++ "prod api" ++ String.singleton aposC ++ " in the name") = "prod api" := by
  constructor
  · intro q
    unfold extract_filter_term amended_filter_term
    cases h1 : q.data.contains aposC with
    | true => simp [h1, pySplitChar_getD_one aposC q.data h1]
    | false =>
      simp only [h1, Bool.false_eq_true, if_false]
      cases h2 : q.data.contains dqC with
      | true => simp [h2, pySplitChar_getD_one dqC q.data h2]
      | false =>
        simp only [h2, Bool.false_eq_true, if_false]
        cases hA : afterSub "with".data (strLower q).data with
        | some rest =>
          have hc : strContains (strLower q) "with" = true := by
            rw [strContains, ← afterSub_isSome, hA]
            rfl
          simp [hc, hA]
        | none =>
          have hc : strContains (strLower q) "with" = false := by
            rw [strContains, ← afterSub_isSome, hA]
            rfl
          simp [hc, lastTokensStripped]
  · decide

end ObsAgent
